import Mathlib

/-!
# Verification of the charcoal RCON / process-supervision core

Shallow embedding of `src/charcoal` (the RCON wire codec and session logic in
`utils/protocols/rcon.py`, the process supervisor in `utils/process.py`, and
the lifecycle orchestration in `lifecycle.py`), together with theorems that
settle the behavioural claims about this code.

Modelling conventions:
* Python `bytes` values are `List Nat` with entries below 256; text payloads
  are represented by their UTF-8 byte sequences (the `str`/UTF-8 conversion
  performed by `.encode('utf8')`/`.decode('utf8')` is a bijection between
  strings and valid UTF-8 byte sequences, so byte-level statements transfer).
* Python `int` packed with `struct.pack('<i', ·)` is `Int`, with the pack
  range check and the little-endian two's-complement layout made explicit.
* Fallible Python code (raising exceptions) returns `Except`/`Option`;
  each distinct exception class that the modelled code can raise is a
  distinct error constructor.
* Async I/O is made explicit: the bytes a server will send on the socket are
  a `stream : List Nat` parameter; `reader.read(4)` takes up to the first 4
  bytes, `reader.readexactly(n)` demands `n` further bytes.
-/

deriving instance DecidableEq for Except

namespace Charcoal

/-- Constant `LOGIN = 3` from `src/charcoal/utils/protocols/rcon.py`. -/
def LOGIN : Int := 3

/-- Constant `COMMAND = 2` from `src/charcoal/utils/protocols/rcon.py`. -/
def COMMAND : Int := 2

/-- Constant `RESPONSE = 0` from `src/charcoal/utils/protocols/rcon.py`. -/
def RESPONSE : Int := 0

/-- Constant `AUTH_FAIL = -1` from `src/charcoal/utils/protocols/rcon.py`. -/
def AUTH_FAIL : Int := -1

/-- Little-endian byte layout of a natural number below `2^32`
(the four bytes emitted by `struct.pack('<i', ·)` after the
two's-complement reduction). -/
def toLE32 (u : Nat) : List Nat :=
  [u % 256, u / 256 % 256, u / 65536 % 256, u / 16777216 % 256]

/-- The `struct.pack('<i', ·)` range test `-2^31 ≤ n < 2^31`, implemented
by matching on the `Int` constructor so that partially symbolic terms do not
force the kernel into deep numeral reductions; `int32Range_iff` states its
arithmetic meaning. -/
def int32Range : Int → Bool
  | .ofNat m => decide (m < 2147483648)
  | .negSucc m => decide (m < 2147483648)

/-- Lemma: `int32Range` tests exactly membership in the signed 32-bit range. -/
theorem int32Range_iff (n : Int) :
    int32Range n = true ↔ -2147483648 ≤ n ∧ n < 2147483648 := by
  cases n <;> simp [int32Range, Int.negSucc_eq] <;> omega

/-- Model of `struct.pack('<i', n)`: packing a Python int as a little-endian signed
32-bit value.  Raises `struct.error` (here: `none`) when the value is out of
the `int32` range; otherwise emits the two's-complement little-endian bytes. -/
def pack_i (n : Int) : Option (List Nat) :=
  if int32Range n then
    some (toLE32 (n % 4294967296).toNat)
  else
    none

/-- Two's-complement reading of a 32-bit unsigned value as a signed int. -/
def signed32 (u : Nat) : Int :=
  if u % 4294967296 < 2147483648 then
    ((u % 4294967296 : Nat) : Int)
  else
    ((u % 4294967296 : Nat) : Int) - 4294967296

/-- Model of `struct.unpack('<i', b)[0]`: requires exactly 4 bytes (`struct.error`,
here `none`, otherwise) and reads them as a little-endian signed 32-bit
integer. -/
def unpack_i : List Nat → Option Int
  | [b0, b1, b2, b3] => some (signed32 (b0 + 256 * b1 + 65536 * b2 + 16777216 * b3))
  | _ => none

/-- Packet class `RCONPacket` (`rcon.py`): payload text (as its UTF-8 bytes), request
type and request id. -/
structure RCONPacket where
  payload : List Nat
  r_type : Int
  r_id : Int
deriving DecidableEq, Repr

/-- The exceptions `RCONPacket.decode` can raise: `struct.error` from
`struct.unpack` on a short buffer, and the module's `AuthFailure`. -/
inductive DecodeErr
  | structError
  | authFailure
deriving DecidableEq, Repr

/-- Method `RCONPacket.encode` (`rcon.py` lines 26–34): packs id and type as
int32LE, appends the UTF-8 payload and the 2-byte pad, and prefixes the
whole body with its length as int32LE. -/
def RCONPacket.encode (p : RCONPacket) : Option (List Nat) :=
  match pack_i p.r_id with
  | none => none
  | some _r_id =>
    match pack_i p.r_type with
    | none => none
    | some _type =>
      let data := _r_id ++ _type ++ p.payload ++ [0, 0]
      match pack_i (data.length : Int) with
      | none => none
      | some lenBytes => some (lenBytes ++ data)

/-- Classmethod `RCONPacket.decode` (`rcon.py` lines 36–46): unpacks `data[:4]` as the
id and `data[4:8]` as the type (each a `struct.error` on a short buffer,
in that order), raises `AuthFailure` when the id is `-1`, and otherwise
returns the packet with payload `data[8:-2]`.
(The Python payload additionally passes through `.decode('utf8')`; payloads
are modelled at the byte level, see the module docstring.) -/
def RCONPacket.decode (data : List Nat) : Except DecodeErr RCONPacket :=
  match unpack_i (data.take 4) with
  | none => .error .structError
  | some _r_id =>
    match unpack_i ((data.drop 4).take 4) with
    | none => .error .structError
    | some _type =>
      if _r_id = AUTH_FAIL then .error .authFailure
      else .ok ⟨(data.drop 8).take (data.length - 10), _type, _r_id⟩

/-- Packing a value in the `int32` range and unpacking the emitted bytes
recovers the value (two's-complement little-endian round trip). -/
theorem unpack_i_pack_i {n : Int} {b : List Nat} (h : pack_i n = some b) :
    unpack_i b = some n := by
  unfold pack_i at h
  split at h
  case isTrue hr =>
    obtain ⟨h1, h2⟩ := (int32Range_iff n).mp hr
    injection h with hb
    subst hb
    have h0 : 0 ≤ n % 4294967296 := Int.emod_nonneg n (by norm_num)
    have h3 : n % 4294967296 < 4294967296 := Int.emod_lt_of_pos n (by norm_num)
    set u := (n % 4294967296).toNat with hu
    have huc : (u : Int) = n % 4294967296 := Int.toNat_of_nonneg h0
    have hul : u < 4294967296 := by omega
    show unpack_i (toLE32 u) = some n
    have hrecon : u % 256 + 256 * (u / 256 % 256) + 65536 * (u / 65536 % 256) +
        16777216 * (u / 16777216 % 256) = u := by omega
    simp only [toLE32, unpack_i, hrecon, signed32, Nat.mod_eq_of_lt hul]
    split <;> [skip; skip] <;> congr 1 <;> omega
  case isFalse => exact absurd h (by simp)

/-- The bytes emitted by a successful pack are exactly four. -/
theorem length_of_pack_i {n : Int} {b : List Nat} (h : pack_i n = some b) :
    b.length = 4 := by
  unfold pack_i at h
  split at h
  · injection h with hb; subst hb; rfl
  · exact absurd h (by simp)

/-- A four-byte buffer always unpacks. -/
theorem unpack_i_isSome_of_length {l : List Nat} (h : l.length = 4) :
    ∃ k, unpack_i l = some k := by
  rcases l with _ | ⟨a, l⟩; · simp at h
  rcases l with _ | ⟨b, l⟩; · simp at h
  rcases l with _ | ⟨c, l⟩; · simp at h
  rcases l with _ | ⟨d, l⟩; · simp at h
  rcases l with _ | ⟨e, l⟩
  · exact ⟨_, rfl⟩
  · simp at h

/-- Decoding a well-formed body: four id bytes, four type bytes, payload,
two pad bytes. -/
theorem decode_of_parts (a b c : List Nat) (ia ib : Int)
    (ha : a.length = 4) (hb : b.length = 4)
    (hua : unpack_i a = some ia) (hub : unpack_i b = some ib) (hia : ia ≠ -1) :
    RCONPacket.decode (a ++ (b ++ (c ++ [0, 0]))) = .ok ⟨c, ib, ia⟩ := by
  have htake : (a ++ (b ++ (c ++ [0, 0]))).take 4 = a := List.take_left' ha
  have hdrop : (a ++ (b ++ (c ++ [0, 0]))).drop 4 = b ++ (c ++ [0, 0]) :=
    List.drop_left' ha
  have htake2 : ((a ++ (b ++ (c ++ [0, 0]))).drop 4).take 4 = b := by
    rw [hdrop]; exact List.take_left' hb
  have hdrop8 : (a ++ (b ++ (c ++ [0, 0]))).drop 8 = c ++ [0, 0] := by
    have : (a ++ (b ++ (c ++ [0, 0]))).drop 8 =
        ((a ++ (b ++ (c ++ [0, 0]))).drop 4).drop 4 := by rw [List.drop_drop]
    rw [this, hdrop]; exact List.drop_left' hb
  have hlen : (a ++ (b ++ (c ++ [0, 0]))).length = c.length + 10 := by
    simp [ha, hb]; omega
  unfold RCONPacket.decode
  rw [htake, hua, htake2, hub, hdrop8, hlen]
  have : ¬ ia = AUTH_FAIL := by simpa [AUTH_FAIL] using hia
  simp only [this, if_false]
  congr 2
  simp

/-- Structure of a successfully encoded frame: a 4-byte length prefix
followed by the body `id ++ type ++ payload ++ pad`. -/
theorem encode_eq_parts {p : RCONPacket} {frame : List Nat}
    (h : RCONPacket.encode p = some frame) :
    ∃ ridb typb lenb,
      pack_i p.r_id = some ridb ∧ pack_i p.r_type = some typb ∧
      pack_i (((ridb ++ typb ++ p.payload ++ [0, 0]).length : Nat) : Int) = some lenb ∧
      frame = lenb ++ (ridb ++ typb ++ p.payload ++ [0, 0]) := by
  unfold RCONPacket.encode at h
  split at h
  next => exact absurd h (by simp)
  next ridb hrid =>
    split at h
    next => exact absurd h (by simp)
    next typb htyp =>
      dsimp only at h
      split at h
      next => exact absurd h (by simp)
      next lenb hlenp =>
        injection h with h
        exact ⟨ridb, typb, lenb, hrid, htyp, hlenp, h.symm⟩

/-- **C1** (amended): the wire codec round-trips once the 4-byte length
prefix is stripped: for every valid triple with id ≠ -1, decoding the body
of the encoded frame (the frame minus the length prefix) yields the triple
back, and the frame's first 4 bytes as int32LE equal the body length;
concretely, payload="help", type=COMMAND, id=42 encodes to a frame with
length prefix 14 whose body decodes to ("help", COMMAND, 42). -/
theorem rcon_codec_roundtrip :
    (∀ (p : RCONPacket) (frame : List Nat), p.r_id ≠ -1 →
        RCONPacket.encode p = some frame →
        RCONPacket.decode (frame.drop 4) = .ok p ∧
        unpack_i (frame.take 4) = some ((p.payload.length : Int) + 10))
    ∧ RCONPacket.encode ⟨[104, 101, 108, 112], COMMAND, 42⟩ =
        some [14, 0, 0, 0, 42, 0, 0, 0, 2, 0, 0, 0, 104, 101, 108, 112, 0, 0]
    ∧ unpack_i (([14, 0, 0, 0, 42, 0, 0, 0, 2, 0, 0, 0, 104, 101, 108, 112, 0, 0] :
        List Nat).take 4) = some 14
    ∧ RCONPacket.decode (([14, 0, 0, 0, 42, 0, 0, 0, 2, 0, 0, 0, 104, 101, 108, 112, 0, 0] :
        List Nat).drop 4) = .ok ⟨[104, 101, 108, 112], COMMAND, 42⟩ := by
  refine ⟨?_, by decide, by decide, by decide⟩
  intro p frame hid henc
  obtain ⟨ridb, typb, lenb, hrid, htyp, hlenp, hframe⟩ := encode_eq_parts henc
  subst hframe
  have hl4 : lenb.length = 4 := length_of_pack_i hlenp
  have hr4 : ridb.length = 4 := length_of_pack_i hrid
  have ht4 : typb.length = 4 := length_of_pack_i htyp
  constructor
  · rw [List.drop_left' hl4]
    have hassoc : ridb ++ typb ++ p.payload ++ [0, 0] =
        ridb ++ (typb ++ (p.payload ++ [0, 0])) := by simp [List.append_assoc]
    rw [hassoc]
    have := decode_of_parts ridb typb p.payload p.r_id p.r_type hr4 ht4
      (unpack_i_pack_i hrid) (unpack_i_pack_i htyp) hid
    exact this
  · rw [List.take_left' hl4]
    have hlen : (((ridb ++ typb ++ p.payload ++ [0, 0]).length : Nat) : Int) =
        (p.payload.length : Int) + 10 := by
      simp [hr4, ht4]
      ring
    rw [← hlen]
    exact unpack_i_pack_i hlenp

/-- **C1** counterexample: as literally stated the round trip fails, because
`encode` prepends the length prefix while `decode` expects the bare body:
decoding the full frame for ("help", COMMAND, 42) returns the packet
(payload = type-bytes ++ "help", type = 42, id = 14), not the original
triple. -/
theorem rcon_decode_of_full_frame_mismatch :
    RCONPacket.decode ((RCONPacket.encode ⟨[104, 101, 108, 112], COMMAND, 42⟩).getD []) =
      .ok ⟨[2, 0, 0, 0, 104, 101, 108, 112], 42, 14⟩
    ∧ RCONPacket.decode ((RCONPacket.encode ⟨[104, 101, 108, 112], COMMAND, 42⟩).getD []) ≠
      .ok ⟨[104, 101, 108, 112], COMMAND, 42⟩ := by decide

/-- Witness for `rcon_codec_roundtrip` at the concrete "help" packet. -/
theorem rcon_codec_roundtrip_witness :
    RCONPacket.decode (([14, 0, 0, 0, 42, 0, 0, 0, 2, 0, 0, 0, 104, 101, 108, 112, 0, 0] :
        List Nat).drop 4) = .ok ⟨[104, 101, 108, 112], COMMAND, 42⟩ ∧
    unpack_i (([14, 0, 0, 0, 42, 0, 0, 0, 2, 0, 0, 0, 104, 101, 108, 112, 0, 0] :
        List Nat).take 4) =
      some ((([104, 101, 108, 112] : List Nat).length : Int) + 10) :=
  rcon_codec_roundtrip.1 ⟨[104, 101, 108, 112], COMMAND, 42⟩
    [14, 0, 0, 0, 42, 0, 0, 0, 2, 0, 0, 0, 104, 101, 108, 112, 0, 0]
    (by decide) (by decide)

/-- **C2** (amended): for every buffer of at least 8 bytes whose first 4
bytes as int32LE equal -1, decode signals AuthFailure, independent of the
remaining bytes; buffers shorter than 8 bytes instead fail with a
`struct.error` when unpacking `data[4:8]`, before the sentinel check. -/
theorem decode_auth_fail_sentinel (data : List Nat) (hlen : 8 ≤ data.length)
    (hid : unpack_i (data.take 4) = some (-1)) :
    RCONPacket.decode data = .error .authFailure := by
  have h4 : ((data.drop 4).take 4).length = 4 := by
    simp [List.length_take, List.length_drop]
    omega
  obtain ⟨k, hk⟩ := unpack_i_isSome_of_length h4
  unfold RCONPacket.decode
  rw [hid, hk]
  simp [AUTH_FAIL]

/-- **C2** counterexample: a 4-byte buffer whose int32LE reading is -1 does
not signal AuthFailure; the unpack of `data[4:8]` raises `struct.error`
first. -/
theorem decode_short_auth_fail_buffer :
    RCONPacket.decode [255, 255, 255, 255] = .error .structError
    ∧ RCONPacket.decode [255, 255, 255, 255] ≠ .error .authFailure := by decide

/-- Witness for `decode_auth_fail_sentinel` on a concrete 8-byte buffer. -/
theorem decode_auth_fail_sentinel_witness :
    RCONPacket.decode [255, 255, 255, 255, 9, 9, 9, 9] = .error .authFailure :=
  decode_auth_fail_sentinel [255, 255, 255, 255, 9, 9, 9, 9] (by decide) (by decide)

/-- The exceptions `asyncio.StreamReader.readexactly` can raise:
`IncompleteReadError` at EOF before `n` bytes, `ValueError` on negative
`n`. -/
inductive ReadErr
  | incompleteRead
  | valueError
deriving DecidableEq, Repr

/-- Model of `reader.readexactly(n)` on a connection whose remaining incoming bytes
are `rest`. -/
def readexactly (n : Int) (rest : List Nat) : Except ReadErr (List Nat) :=
  if n < 0 then .error .valueError
  else if (rest.length : Int) < n then .error .incompleteRead
  else .ok (rest.take n.toNat)

/-- How a call to `establish_connection` terminates: a normal return of the
`ack` boolean, an `RconAuthFailure` with the given detail message, or a
propagated `struct.error` / `ValueError`. -/
inductive LoginOutcome
  | ok (ack : Bool)
  | rconAuthFailure (details : String)
  | structError
  | valueError
deriving DecidableEq, Repr

/-- Python dict assignment `self.connections[server] = con` on an
association-list registry: overwrite the entry for `server` if present,
otherwise append a new one. -/
def setConn (conns : List (String × Nat)) (server : String) (con : Nat) :
    List (String × Nat) :=
  if conns.any (fun e => e.1 == server) then
    conns.map (fun e => if e.1 == server then (server, con) else e)
  else
    conns ++ [(server, con)]

/-- Function `establish_connection` (`rcon.py` lines 49–85).  The Python function is
a method body (it references `self.connections` and `self._get_rcon_info`):
the registry `conns`, the resolved rcon info (`None`, or the password
payload bytes), the randomly drawn login id, the token of the freshly
opened connection, and the bytes the server sends on the socket are
explicit parameters.  Returns the outcome, the registry afterwards, and the
connection tokens closed during the call. -/
def establish_connection (conns : List (String × Nat)) (server : String)
    (rcon_info : Option (List Nat)) (loginId : Int) (newCon : Nat)
    (stream : List Nat) : LoginOutcome × List (String × Nat) × List Nat :=
  match rcon_info with
  | none => (.ok false, conns, [])
  | some password =>
    match RCONPacket.encode ⟨password, LOGIN, loginId⟩ with
    | none => (.structError, conns, [])
    | some _frame =>
      match unpack_i (stream.take 4) with
      | none => (.structError, conns, [])
      | some response_length =>
        match readexactly response_length (stream.drop 4) with
        | .error .valueError => (.valueError, conns, [])
        | .error .incompleteRead =>
            (.rconAuthFailure "incomplete login response", conns, [])
        | .ok data =>
          match RCONPacket.decode data with
          | .error .authFailure =>
              (.rconAuthFailure "authentication rejected", conns, [])
          | .error .structError => (.structError, conns, [])
          | .ok response =>
            if response.r_id = loginId then
              match conns.lookup server with
              | some old_con => (.ok true, setConn conns server newCon, [old_con])
              | none => (.ok true, setConn conns server newCon, [])
            else (.ok false, conns, [])

/-- After a dict assignment, looking the key up yields the new value. -/
theorem lookup_setConn (conns : List (String × Nat)) (s : String) (c : Nat) :
    (setConn conns s c).lookup s = some c := by
  unfold setConn
  split
  case isTrue hany =>
    induction conns with
    | nil => simp at hany
    | cons e rest ih =>
      simp only [List.map_cons]
      by_cases he : e.1 = s
      · rw [if_pos (show (e.1 == s) = true by simp [he])]
        simp [List.lookup]
      · rw [if_neg (show ¬ (e.1 == s) = true by simp [he])]
        have hse : (s == e.1) = false := by simp [Ne.symm he]
        have hrest : rest.any (fun e => e.1 == s) = true := by
          simpa [List.any_cons, show (e.1 == s) = false by simp [he]] using hany
        simp only [List.lookup, hse]
        exact ih hrest
  case isFalse hany =>
    induction conns with
    | nil => simp [List.lookup]
    | cons e rest ih =>
      have he' : (e.1 == s) = false := by
        by_contra hc
        simp only [Bool.not_eq_false] at hc
        exact hany (by simp [List.any_cons, hc])
      have hse : (s == e.1) = false := by
        have : ¬ e.1 = s := by simpa using he'
        simp [Ne.symm this]
      have hrest : ¬ rest.any (fun e => e.1 == s) = true := by
        intro hc
        exact hany (by simp [List.any_cons, hc])
      simp [List.lookup, hse, ih hrest]

/-- Dict assignment preserves distinctness of the registry's keys. -/
theorem nodup_keys_setConn (conns : List (String × Nat)) (s : String) (c : Nat)
    (h : (conns.map Prod.fst).Nodup) :
    ((setConn conns s c).map Prod.fst).Nodup := by
  unfold setConn
  split
  case isTrue hany =>
    have hmap : (conns.map (fun e => if e.1 == s then (s, c) else e)).map Prod.fst =
        conns.map Prod.fst := by
      rw [List.map_map]
      apply List.map_congr_left
      intro e _
      by_cases he : e.1 = s
      · simp [he]
      · simp [he]
    rw [hmap]
    exact h
  case isFalse hany =>
    have hnotin : s ∉ conns.map Prod.fst := by
      intro hc
      obtain ⟨e, hmem, hfst⟩ := List.mem_map.mp hc
      exact hany (List.any_eq_true.mpr ⟨e, hmem, by simp [hfst]⟩)
    simp only [List.map_append]
    simp [List.nodup_append, h, hnotin]

/-- **C3** (amended): the session becomes AUTHENTICATED (the server is
registered with the new connection and the call returns True) exactly when
the decoded response id equals the login request id.  A response signalling
AuthFailure makes the login fail with `RconAuthFailure` ("authentication
rejected"); a decodable response whose id differs from the request id makes
the login return False without raising; in both cases the session never
transitions to AUTHENTICATED (the registry is unchanged and no connection
is closed). -/
theorem establish_connection_ack_iff
    (conns : List (String × Nat)) (server : String) (pw : List Nat)
    (loginId : Int) (newCon : Nat) (stream : List Nat)
    (henc : (RCONPacket.encode ⟨pw, LOGIN, loginId⟩).isSome) :
    (∀ n data resp,
        unpack_i (stream.take 4) = some n →
        readexactly n (stream.drop 4) = .ok data →
        RCONPacket.decode data = .ok resp →
        (((establish_connection conns server (some pw) loginId newCon stream).1 = .ok true ∧
            ((establish_connection conns server (some pw) loginId newCon stream).2.1).lookup
              server = some newCon)
          ↔ resp.r_id = loginId)
        ∧ (resp.r_id ≠ loginId →
            establish_connection conns server (some pw) loginId newCon stream =
              (.ok false, conns, [])))
    ∧ (∀ n data,
        unpack_i (stream.take 4) = some n →
        readexactly n (stream.drop 4) = .ok data →
        RCONPacket.decode data = .error .authFailure →
        establish_connection conns server (some pw) loginId newCon stream =
          (.rconAuthFailure "authentication rejected", conns, [])) := by
  obtain ⟨frame, hframe⟩ := Option.isSome_iff_exists.mp henc
  refine ⟨?_, ?_⟩
  · intro n data resp hn hread hdec
    simp only [establish_connection, hframe, hn, hread, hdec]
    refine ⟨?_, ?_⟩
    · by_cases hr : resp.r_id = loginId
      · rw [if_pos hr]
        cases hlk : conns.lookup server with
        | some old => simp [hr, lookup_setConn]
        | none => simp [hr, lookup_setConn]
      · rw [if_neg hr]
        simp [hr]
    · intro hr
      rw [if_neg hr]
  · intro n data hn hread hdec
    simp only [establish_connection, hframe, hn, hread, hdec]

/-- **C3** counterexample: when the server echoes a well-formed response
whose id (9) differs from the login request id (42), the login does not
fail with `RconAuthFailure` ("authentication rejected") as the claim
states; it returns False normally, leaving the registry untouched. -/
theorem establish_connection_mismatch_returns_false :
    RCONPacket.decode [9, 0, 0, 0, 0, 0, 0, 0, 0, 0] = .ok ⟨[], 0, 9⟩
    ∧ establish_connection [("srv", 3)] "srv" (some [112]) 42 7
        ([10, 0, 0, 0] ++ [9, 0, 0, 0, 0, 0, 0, 0, 0, 0]) = (.ok false, [("srv", 3)], [])
    ∧ (LoginOutcome.ok false) ≠ (.rconAuthFailure "authentication rejected") := by
  decide

/-- Witness for `establish_connection_ack_iff`: a login whose response
echoes the request id 42 registers the new connection and returns True. -/
theorem establish_connection_ack_iff_witness :
    (establish_connection [] "srv" (some [112]) 42 7
        ([10, 0, 0, 0] ++ [42, 0, 0, 0, 0, 0, 0, 0, 0, 0])).1 = .ok true ∧
    ((establish_connection [] "srv" (some [112]) 42 7
        ([10, 0, 0, 0] ++ [42, 0, 0, 0, 0, 0, 0, 0, 0, 0])).2.1).lookup "srv" = some 7 :=
  ((establish_connection_ack_iff [] "srv" [112] 42 7
      ([10, 0, 0, 0] ++ [42, 0, 0, 0, 0, 0, 0, 0, 0, 0]) (by decide)).1 10
      [42, 0, 0, 0, 0, 0, 0, 0, 0, 0] ⟨[], 0, 42⟩ (by decide) (by decide)
      (by decide)).1.mpr (by decide)

/-- **C4**: a second successful login for a registered server name closes
exactly the old connection and re-registers the name to the new connection
(one usable session, distinct registry keys preserved — no socket leak),
while every failure mode (id mismatch, AuthFailure response, incomplete
response) leaves the previously registered session untouched and closes
nothing (fail-keep-old). -/
theorem login_replacement_policy
    (conns : List (String × Nat)) (server : String) (pw : List Nat)
    (loginId : Int) (newCon oldCon : Nat) (stream : List Nat)
    (henc : (RCONPacket.encode ⟨pw, LOGIN, loginId⟩).isSome)
    (hold : conns.lookup server = some oldCon) :
    (∀ n data resp,
        unpack_i (stream.take 4) = some n →
        readexactly n (stream.drop 4) = .ok data →
        RCONPacket.decode data = .ok resp →
        resp.r_id = loginId →
        establish_connection conns server (some pw) loginId newCon stream =
          (.ok true, setConn conns server newCon, [oldCon])
        ∧ (setConn conns server newCon).lookup server = some newCon
        ∧ ((conns.map Prod.fst).Nodup →
            ((setConn conns server newCon).map Prod.fst).Nodup))
    ∧ (∀ n data resp,
        unpack_i (stream.take 4) = some n →
        readexactly n (stream.drop 4) = .ok data →
        RCONPacket.decode data = .ok resp →
        resp.r_id ≠ loginId →
        establish_connection conns server (some pw) loginId newCon stream =
          (.ok false, conns, []))
    ∧ (∀ n data,
        unpack_i (stream.take 4) = some n →
        readexactly n (stream.drop 4) = .ok data →
        RCONPacket.decode data = .error .authFailure →
        establish_connection conns server (some pw) loginId newCon stream =
          (.rconAuthFailure "authentication rejected", conns, []))
    ∧ (∀ n,
        unpack_i (stream.take 4) = some n →
        readexactly n (stream.drop 4) = .error .incompleteRead →
        establish_connection conns server (some pw) loginId newCon stream =
          (.rconAuthFailure "incomplete login response", conns, [])) := by
  obtain ⟨frame, hframe⟩ := Option.isSome_iff_exists.mp henc
  refine ⟨?_, ?_, ?_, ?_⟩
  · intro n data resp hn hread hdec hr
    simp only [establish_connection, hframe, hn, hread, hdec]
    rw [if_pos hr, hold]
    exact ⟨rfl, lookup_setConn conns server newCon,
      nodup_keys_setConn conns server newCon⟩
  · intro n data resp hn hread hdec hr
    simp only [establish_connection, hframe, hn, hread, hdec]
    rw [if_neg hr]
  · intro n data hn hread hdec
    simp only [establish_connection, hframe, hn, hread, hdec]
  · intro n hn hread
    simp only [establish_connection, hframe, hn, hread]

/-- Witness for `login_replacement_policy`: a re-login for "srv" replaces
the registered connection 3 with 7 and closes exactly connection 3. -/
theorem login_replacement_policy_witness :
    establish_connection [("srv", 3)] "srv" (some [112]) 42 7
        ([10, 0, 0, 0] ++ [42, 0, 0, 0, 0, 0, 0, 0, 0, 0]) =
      (.ok true, setConn [("srv", 3)] "srv" 7, [3])
    ∧ (setConn [("srv", 3)] "srv" 7).lookup "srv" = some 7
    ∧ ((([("srv", 3)] : List (String × Nat)).map Prod.fst).Nodup →
        ((setConn [("srv", 3)] "srv" 7).map Prod.fst).Nodup) := by
  exact (login_replacement_policy [("srv", 3)] "srv" [112] 42 7 3
      ([10, 0, 0, 0] ++ [42, 0, 0, 0, 0, 0, 0, 0, 0, 0]) (by decide) (by decide)).1 10
      [42, 0, 0, 0, 0, 0, 0, 0, 0, 0] ⟨[], 0, 42⟩ (by decide) (by decide)
      (by decide) (by decide)

/-- How a call to `send_command` terminates: a normal return (payload bytes,
or `None`), a re-raised `AuthFailure`, or a propagated `struct.error` /
`ValueError`. -/
inductive SendResult
  | ok (res : Option (List Nat))
  | authFailure
  | structError
  | valueError
deriving DecidableEq, Repr

/-- Function `send_command` (`rcon.py` lines 87–113), on an already established
reader/writer pair; the freshly drawn random request id and the bytes the
server sends back are explicit parameters. -/
def send_command (reqId : Int) (command : List Nat) (stream : List Nat) :
    SendResult :=
  match RCONPacket.encode ⟨command, COMMAND, reqId⟩ with
  | none => .structError
  | some _frame =>
    match unpack_i (stream.take 4) with
    | none => .structError
    | some response_length =>
      match readexactly response_length (stream.drop 4) with
      | .error .valueError => .valueError
      | .error .incompleteRead => .ok none
      | .ok data =>
        match RCONPacket.decode data with
        | .error .authFailure => .authFailure
        | .error .structError => .structError
        | .ok response =>
          if response.r_id = reqId ∧ response.r_type = RESPONSE then
            .ok (some response.payload)
          else
            .ok none

/-- Result of a session-level command send: either the rejection of an
unauthenticated session, or the outcome of the underlying `send_command`. -/
inductive SessionSendOutcome
  | rejectedNotAuthenticated
  | result (r : SendResult)
deriving DecidableEq, Repr

/-- Modelled from the spec: the session-level `sendCommand` gate is not in
`src/` (the `send_command` in `rcon.py` already takes an established
reader/writer pair, and no caller in `src/` performs the AUTHENTICATED
check); per spec §4.2, `sendCommand` "requires AUTHENTICATED" and a command
on a non-authenticated session is rejected without attempting network I/O.
The returned triple is (outcome, whether network I/O was attempted, the
registry afterwards). -/
def sendCommandSession (conns : List (String × Nat)) (server : String)
    (reqId : Int) (command : List Nat) (stream : List Nat) :
    SessionSendOutcome × Bool × List (String × Nat) :=
  match conns.lookup server with
  | none => (.rejectedNotAuthenticated, false, conns)
  | some _ => (.result (send_command reqId command stream), true, conns)

/-- **C5** (amended): a command on a non-authenticated session (no registry
entry for the server) is rejected without attempting network I/O, and on an
authenticated session the underlying `send_command` runs with the registry
untouched.  `send_command` returns the response payload exactly when the
decoded response id equals the fresh request id and the response type is
RESPONSE; a decodable response failing that test, and an incomplete body
read, yield "no result" (None) without tearing down the session; however a
response carrying the auth-failure sentinel id propagates `AuthFailure`
rather than yielding "no result". -/
theorem send_command_contract
    (conns : List (String × Nat)) (server : String)
    (reqId : Int) (command stream : List Nat)
    (henc : (RCONPacket.encode ⟨command, COMMAND, reqId⟩).isSome) :
    (conns.lookup server = none →
        sendCommandSession conns server reqId command stream =
          (.rejectedNotAuthenticated, false, conns))
    ∧ (∀ con, conns.lookup server = some con →
        sendCommandSession conns server reqId command stream =
          (.result (send_command reqId command stream), true, conns))
    ∧ (∀ n data resp,
        unpack_i (stream.take 4) = some n →
        readexactly n (stream.drop 4) = .ok data →
        RCONPacket.decode data = .ok resp →
        ((send_command reqId command stream = .ok (some resp.payload)) ↔
          (resp.r_id = reqId ∧ resp.r_type = RESPONSE))
        ∧ (¬(resp.r_id = reqId ∧ resp.r_type = RESPONSE) →
            send_command reqId command stream = .ok none))
    ∧ (∀ n,
        unpack_i (stream.take 4) = some n →
        readexactly n (stream.drop 4) = .error .incompleteRead →
        send_command reqId command stream = .ok none)
    ∧ (∀ n data,
        unpack_i (stream.take 4) = some n →
        readexactly n (stream.drop 4) = .ok data →
        RCONPacket.decode data = .error .authFailure →
        send_command reqId command stream = .authFailure) := by
  obtain ⟨frame, hframe⟩ := Option.isSome_iff_exists.mp henc
  refine ⟨?_, ?_, ?_, ?_, ?_⟩
  · intro hnone
    simp only [sendCommandSession, hnone]
  · intro con hcon
    simp only [sendCommandSession, hcon]
  · intro n data resp hn hread hdec
    simp only [send_command, hframe, hn, hread, hdec]
    constructor
    · by_cases hr : resp.r_id = reqId ∧ resp.r_type = RESPONSE
      · rw [if_pos hr]
        simp [hr]
      · rw [if_neg hr]
        simp [hr]
    · intro hr
      rw [if_neg hr]
  · intro n hn hread
    simp only [send_command, hframe, hn, hread]
  · intro n data hn hread hdec
    simp only [send_command, hframe, hn, hread, hdec]

/-- **C5** counterexample: a server response carrying the auth-failure
sentinel id -1 does not produce "no result"; `send_command` re-raises
`AuthFailure`. -/
theorem send_command_auth_sentinel_raises :
    send_command 42 [104, 101, 108, 112]
        ([10, 0, 0, 0] ++ [255, 255, 255, 255, 0, 0, 0, 0, 0, 0]) = .authFailure
    ∧ send_command 42 [104, 101, 108, 112]
        ([10, 0, 0, 0] ++ [255, 255, 255, 255, 0, 0, 0, 0, 0, 0]) ≠ .ok none := by
  decide

/-- Witness for `send_command_contract`: concrete rejected-unauthenticated
send and a matched-id RESPONSE returning its payload. -/
theorem send_command_contract_witness :
    sendCommandSession [] "srv" 42 [104, 101, 108, 112]
        ([11, 0, 0, 0] ++ [42, 0, 0, 0, 0, 0, 0, 0, 65, 0, 0]) =
      (.rejectedNotAuthenticated, false, [])
    ∧ send_command 42 [104, 101, 108, 112]
        ([11, 0, 0, 0] ++ [42, 0, 0, 0, 0, 0, 0, 0, 65, 0, 0]) =
      .ok (some (RCONPacket.mk [65] 0 42).payload) :=
  ⟨(send_command_contract [] "srv" 42 [104, 101, 108, 112]
      ([11, 0, 0, 0] ++ [42, 0, 0, 0, 0, 0, 0, 0, 65, 0, 0]) (by decide)).1 (by decide),
   ((send_command_contract [] "srv" 42 [104, 101, 108, 112]
      ([11, 0, 0, 0] ++ [42, 0, 0, 0, 0, 0, 0, 0, 65, 0, 0]) (by decide)).2.2.1 11
      [42, 0, 0, 0, 0, 0, 0, 0, 65, 0, 0] ⟨[65], 0, 42⟩ (by decide) (by decide)
      (by decide)).1.mpr (by decide)⟩

-- Sanity checks of the session model against hand-traced Python runs.
example : establish_connection [] "srv" (some [112]) 42 7
    ([10, 0, 0, 0] ++ [42, 0, 0, 0, 0, 0, 0, 0, 0, 0]) = (.ok true, [("srv", 7)], []) := by
  decide

example : establish_connection [("srv", 3)] "srv" (some [112]) 42 7
    ([10, 0, 0, 0] ++ [42, 0, 0, 0, 0, 0, 0, 0, 0, 0]) = (.ok true, [("srv", 7)], [3]) := by
  decide

example : establish_connection [("srv", 3)] "srv" (some [112]) 42 7
    ([10, 0, 0, 0] ++ [9, 0, 0, 0, 0, 0, 0, 0, 0, 0]) = (.ok false, [("srv", 3)], []) := by
  decide

example : establish_connection [("srv", 3)] "srv" (some [112]) 42 7
    ([10, 0, 0, 0] ++ [255, 255, 255, 255, 0, 0, 0, 0, 0, 0]) =
    (.rconAuthFailure "authentication rejected", [("srv", 3)], []) := by decide

example : establish_connection [("srv", 3)] "srv" (some [112]) 42 7
    ([10, 0, 0, 0] ++ [1, 2]) =
    (.rconAuthFailure "incomplete login response", [("srv", 3)], []) := by decide

example : send_command 42 [104, 101, 108, 112]
    ([10, 0, 0, 0] ++ [42, 0, 0, 0, 0, 0, 0, 0, 0, 0]) = .ok (some []) := by decide

example : send_command 42 [104, 101, 108, 112]
    ([11, 0, 0, 0] ++ [42, 0, 0, 0, 0, 0, 0, 0, 65, 0, 0]) = .ok (some [65]) := by decide

example : send_command 42 [104, 101, 108, 112]
    ([10, 0, 0, 0] ++ [42, 0, 0, 0, 2, 0, 0, 0, 0, 0]) = .ok none := by decide

example : send_command 42 [104, 101, 108, 112]
    ([10, 0, 0, 0] ++ [255, 255, 255, 255, 0, 0, 0, 0, 0, 0]) = .authFailure := by decide

example : sendCommandSession [] "srv" 42 [] [] = (.rejectedNotAuthenticated, false, []) := by
  decide

/-- How a supervised OS process reacts to the two-tier termination sequence
of `ServerProcess._terminate` (`process.py` lines 84–100):
* `goneAlready`: already gone when the graceful signal is attempted
  (`terminate()` raises `NoSuchProcess`, swallowed);
* `diesOnTerm`: receives the graceful signal and exits within the first
  `wait_procs` window;
* `goneAtKill`: still alive after the first wait but gone by the time the
  forceful signal is attempted (`kill()` raises `NoSuchProcess`, swallowed);
* `diesOnKill`: receives the forceful signal and exits within the second
  `wait_procs` window;
* `immortal`: survives both signal tiers. -/
inductive PBehavior
  | goneAlready
  | diesOnTerm
  | goneAtKill
  | diesOnKill
  | immortal
deriving DecidableEq, Repr

/-- One OS process under supervision: its pid and its reaction to the
termination sequence. -/
structure Proc where
  pid : Nat
  behavior : PBehavior
deriving DecidableEq, Repr

/-- Processes still alive when the first `wait_procs(processes, timeout)`
returns. -/
def aliveAfterTermWait (b : PBehavior) : Bool :=
  match b with
  | .goneAtKill | .diesOnKill | .immortal => true
  | .goneAlready | .diesOnTerm => false

/-- How `_terminate` ends: a normal return, or `TerminationFailed(name)`. -/
inductive TermResult
  | success
  | terminationFailed (name : String)
deriving DecidableEq, Repr

/-- Observable effects of one `ServerProcess._terminate` run. -/
structure TerminateTrace where
  termAttempted : List Nat
  termDelivered : List Nat
  killAttempted : List Nat
  killDelivered : List Nat
  firstWaitTimeout : Nat
  secondWaitTimeout : Nat
  result : TermResult
deriving DecidableEq, Repr

/-- Method `ServerProcess._terminate` (`process.py` lines 84–100): collects the
recursive children plus the process itself, calls `terminate()` on each
(swallowing `NoSuchProcess`), waits up to `timeout`, calls `kill()` on the
survivors of the first wait (again swallowing `NoSuchProcess`), waits up to
`timeout` again over all collected processes, and raises
`TerminationFailed(name)` iff survivors remain. -/
def ServerProcess.terminateRun (name : String) (root : Proc)
    (children : List Proc) (timeout : Nat) : TerminateTrace :=
  let processes := children ++ [root]
  let alive1 := processes.filter (fun p => aliveAfterTermWait p.behavior)
  let alive2 := processes.filter (fun p => p.behavior == .immortal)
  { termAttempted := processes.map (·.pid)
    termDelivered :=
      (processes.filter (fun p => ¬ p.behavior = .goneAlready)).map (·.pid)
    killAttempted := alive1.map (·.pid)
    killDelivered := (alive1.filter (fun p => ¬ p.behavior = .goneAtKill)).map (·.pid)
    firstWaitTimeout := timeout
    secondWaitTimeout := timeout
    result := if alive2.isEmpty then .success else .terminationFailed name }

/-- **C6**: `_terminate` collects the process and all its descendants and
attempts the graceful signal on each; it waits up to `timeout`; it attempts
the forceful signal exactly on the survivors of the first wait (so a
process that died after the graceful signal never receives the forceful
one); it waits up to `timeout` again; it returns normally exactly when the
final wait leaves no survivors; and "process already gone" races are
swallowed in either signal phase (they only shrink the delivered set, never
affect the result). -/
theorem terminate_two_tier
    (name : String) (root : Proc) (children : List Proc) (timeout : Nat)
    (hnd : ((children ++ [root]).map Proc.pid).Nodup) :
    (ServerProcess.terminateRun name root children timeout).termAttempted =
        (children ++ [root]).map Proc.pid
    ∧ (ServerProcess.terminateRun name root children timeout).firstWaitTimeout = timeout
    ∧ (ServerProcess.terminateRun name root children timeout).secondWaitTimeout = timeout
    ∧ (ServerProcess.terminateRun name root children timeout).killAttempted =
        ((children ++ [root]).filter (fun p => aliveAfterTermWait p.behavior)).map Proc.pid
    ∧ (∀ p ∈ children ++ [root], p.behavior = .diesOnTerm →
        p.pid ∉ (ServerProcess.terminateRun name root children timeout).killAttempted)
    ∧ ((ServerProcess.terminateRun name root children timeout).result = .success ↔
        ∀ p ∈ children ++ [root], p.behavior ≠ .immortal)
    ∧ (ServerProcess.terminateRun name root children timeout).termDelivered =
        ((children ++ [root]).filter (fun p => ¬ p.behavior = .goneAlready)).map Proc.pid
    ∧ (ServerProcess.terminateRun name root children timeout).killDelivered =
        (((children ++ [root]).filter (fun p => aliveAfterTermWait p.behavior)).filter
          (fun p => ¬ p.behavior = .goneAtKill)).map Proc.pid := by
  refine ⟨rfl, rfl, rfl, rfl, ?_, ?_, rfl, rfl⟩
  · intro p hp hb hmem
    simp only [ServerProcess.terminateRun, List.mem_map] at hmem
    obtain ⟨q, hq, hqp⟩ := hmem
    have hq' := List.mem_filter.mp hq
    have : q = p := List.inj_on_of_nodup_map hnd hq'.1 hp hqp
    subst this
    rw [hb] at hq'
    simp [aliveAfterTermWait] at hq'
  · simp only [ServerProcess.terminateRun]
    split
    case isTrue hempty =>
      simp only [List.isEmpty_iff] at hempty
      constructor
      · intro _ p hp hb
        have : p ∈ (children ++ [root]).filter (fun p => p.behavior == .immortal) :=
          List.mem_filter.mpr ⟨hp, by simp [hb]⟩
        rw [hempty] at this
        simp at this
      · intro _; rfl
    case isFalse hempty =>
      simp only [List.isEmpty_iff] at hempty
      constructor
      · intro hc
        exact absurd hc (by simp)
      · intro hall
        exfalso
        apply hempty
        rw [List.filter_eq_nil_iff]
        intro p hp
        simpa using hall p hp

/-- Witness for `terminate_two_tier`: a root that dies on the graceful
signal with children that are gone, die on kill, or vanish before kill;
termination succeeds and the root never receives the forceful signal. -/
theorem terminate_two_tier_witness :
    (ServerProcess.terminateRun "alpha" ⟨1, .diesOnTerm⟩
        [⟨2, .goneAlready⟩, ⟨3, .diesOnKill⟩, ⟨4, .goneAtKill⟩] 3).result = .success
    ∧ (1 : Nat) ∉ (ServerProcess.terminateRun "alpha" ⟨1, .diesOnTerm⟩
        [⟨2, .goneAlready⟩, ⟨3, .diesOnKill⟩, ⟨4, .goneAtKill⟩] 3).killAttempted :=
  ⟨(terminate_two_tier "alpha" ⟨1, .diesOnTerm⟩
      [⟨2, .goneAlready⟩, ⟨3, .diesOnKill⟩, ⟨4, .goneAtKill⟩] 3
      (by decide)).2.2.2.2.2.1.mpr (by decide),
   (terminate_two_tier "alpha" ⟨1, .diesOnTerm⟩
      [⟨2, .goneAlready⟩, ⟨3, .diesOnKill⟩, ⟨4, .goneAtKill⟩] 3
      (by decide)).2.2.2.2.1 ⟨1, .diesOnTerm⟩ (by decide) rfl⟩

/-- One entry of the OS process table as seen through
`psutil.process_iter`: the command-line argument vector and the number of
child processes. -/
structure OsProc where
  cmdline : List String
  childCount : Nat
deriving DecidableEq, Repr

/-- The exceptions `ServerProcess._post_init` can raise: the `NameError`
from the unbound identifier `name` and the declared `ProcessNotFound`. -/
inductive FindErr
  | nameError
  | processNotFound
deriving DecidableEq, Repr

/-- The loop of `ServerProcess._post_init` (`process.py` lines 20–41),
modelled exactly as written:
* the loop tests `if name in process.info['cmdline']` — the bare identifier
  `name` has no binding in any enclosing scope (the attribute is
  `self.name`), so evaluating it raises `NameError`; `nameBinding` is what
  Python name resolution would yield, which is `none` for the code as it
  stands;
* `name in cmdline` is list membership, i.e. equality with one whole
  argument;
* the `for … else` clause runs whenever the loop finishes without `break`,
  and the loop body contains no `break`, so after scanning the whole table
  the `else` clause always raises `ProcessNotFound`, even when a match was
  found and captured into `self.process` (tracked here as `captured`). -/
def postInitLoop (nameBinding : Option String) (captured : Option OsProc) :
    List OsProc → Except FindErr OsProc
  | [] => .error .processNotFound
  | p :: rest =>
    match nameBinding with
    | none => .error .nameError
    | some n =>
      if n ∈ p.cmdline ∧ 0 < p.childCount then
        postInitLoop nameBinding (some p) rest
      else
        postInitLoop nameBinding captured rest

/-- Classmethod `ServerProcess.find` (`process.py` lines 43–69): runs `_post_init` over
the process table and returns the constructed handle; a success would
surface the captured process. -/
def ServerProcess.find (nameBinding : Option String) (table : List OsProc) :
    Except FindErr OsProc :=
  postInitLoop nameBinding none table

/-- The `for … else` structure makes every `_post_init` run raise. -/
theorem postInitLoop_always_errors (nb : Option String) :
    ∀ (table : List OsProc) (captured : Option OsProc),
      ∃ e, postInitLoop nb captured table = .error e := by
  intro table
  induction table with
  | nil => intro c; exact ⟨.processNotFound, rfl⟩
  | cons p rest ih =>
    intro c
    cases nb with
    | none => exact ⟨.nameError, rfl⟩
    | some n =>
      simp only [postInitLoop]
      split
      · exact ih (some p)
      · exact ih c

/-- **C7**: the code can never return a `ManagedProcess` handle: the bare
`name` identifier raises `NameError` on a non-empty process table, and the
`for … else` clause (no `break` in the loop body) raises `ProcessNotFound`
after every completed scan — including on a table holding a qualifying
match (name in the command line and at least one child), where the claim
and the function's own docstring promise a returned handle. -/
theorem find_never_succeeds :
    (∀ (nameBinding : Option String) (table : List OsProc),
      ∃ e, ServerProcess.find nameBinding table = .error e)
    ∧ ServerProcess.find (some "alpha")
        [⟨["java", "-jar", "alpha"], 1⟩] = .error .processNotFound
    ∧ ServerProcess.find none
        [⟨["java", "-jar", "alpha"], 1⟩] = .error .nameError := by
  exact ⟨fun nb table => postInitLoop_always_errors nb table none, by decide, by decide⟩

/-- Function `checkServerRunning` (`process.py` lines 126–146): scans the process
table and returns True on the first process whose command-line argument
list contains `name` (Python list membership, i.e. one argument equal to
`name`), else False. -/
def checkServerRunning (name : String) (table : List OsProc) : Bool :=
  match table with
  | [] => false
  | p :: rest => if name ∈ p.cmdline then true else checkServerRunning name rest

/-- The matching predicate in the claim's words: some OS process's argument
list contains the literal substring `"<name>.jar"` in one of its
arguments.  Stated for comparison with `checkServerRunning`, which is
translated from the source. -/
def specRunningByJarSubstring (name : String) (table : List OsProc) : Prop :=
  ∃ p ∈ table, ∃ arg ∈ p.cmdline, (name ++ ".jar").toList <:+: arg.toList

/-- **C8** (amended): the one-shot running check returns true iff some OS
process's argument list contains the server name itself as one whole
argument — not the substring `"<name>.jar"` of the claim: no `.jar` suffix
is appended, and Python's `in` on the argument list is element equality,
not substring search. -/
theorem checkServerRunning_iff (name : String) (table : List OsProc) :
    checkServerRunning name table = true ↔ ∃ p ∈ table, name ∈ p.cmdline := by
  induction table with
  | nil => simp [checkServerRunning]
  | cons p rest ih =>
    by_cases h : name ∈ p.cmdline
    · simp [checkServerRunning, h]
    · simp [checkServerRunning, h, ih]

/-- **C8** counterexample: a table whose only process was launched as
`java -jar /srv/alpha.jar` satisfies the claim's substring predicate for
"alpha", yet `checkServerRunning "alpha"` returns false. -/
theorem checkServerRunning_substring_mismatch :
    specRunningByJarSubstring "alpha" [⟨["java", "-jar", "/srv/alpha.jar"], 1⟩]
    ∧ checkServerRunning "alpha" [⟨["java", "-jar", "/srv/alpha.jar"], 1⟩] = false := by
  constructor
  · exact ⟨⟨["java", "-jar", "/srv/alpha.jar"], 1⟩, by simp, "/srv/alpha.jar", by simp,
      ⟨"/srv/".toList, [], by decide⟩⟩
  · decide

/-- The exceptions flowing through `serverStatus`: `SpiffyPathNotFound`
from `discover_servers`, or a failure raised inside one identity's own
check. -/
inductive StatusErr
  | spiffyPathNotFound
  | scanError
deriving DecidableEq, Repr

/-- The `_getStatus` loop of `serverStatus` (`lifecycle.py` lines 75–104):
for each discovered server, `_status[server.name] = True if
isUp(server.name) else False`; there is no per-identity exception handling,
so an exception raised by any single `isUp` call propagates out of the loop
and discards the partial dict.  `isUp` itself is not defined under `src/`
(only referenced from `lifecycle.py` and `spiffy-mc/utils/backup.py`), so
each server's check outcome is an oracle parameter. -/
def getStatusLoop (isUp : String → Except StatusErr Bool) :
    List String → Except StatusErr (List (String × Bool))
  | [] => .ok []
  | s :: rest =>
    match isUp s with
    | .error e => .error e
    | .ok b =>
      match getStatusLoop isUp rest with
      | .error e => .error e
      | .ok tail => .ok ((s, if b then true else false) :: tail)

/-- Function `serverStatus` (`lifecycle.py` lines 75–104): discover the servers
(propagating `SpiffyPathNotFound`), then run the status loop. -/
def serverStatus (discovered : Except StatusErr (List String))
    (isUp : String → Except StatusErr Bool) :
    Except StatusErr (List (String × Bool)) :=
  match discovered with
  | .error e => .error e
  | .ok servers => getStatusLoop isUp servers

/-- **C9** (amended): when every identity's check returns, the batch
reports one independent result per identity; but there is no per-identity
isolation — a failure raised while checking any one identity propagates
and aborts the whole batch, blanking the results of the other
identities. -/
theorem serverStatus_batch
    (servers : List String) (isUp : String → Except StatusErr Bool) :
    ((∀ s ∈ servers, ∃ b, isUp s = .ok b) →
      ∃ res, serverStatus (.ok servers) isUp = .ok res
        ∧ res.map Prod.fst = servers
        ∧ ∀ pr ∈ res, isUp pr.1 = .ok pr.2)
    ∧ ((∃ s ∈ servers, ∀ b, isUp s ≠ .ok b) →
      ∃ e, serverStatus (.ok servers) isUp = .error e) := by
  constructor
  · intro hall
    simp only [serverStatus]
    induction servers with
    | nil => exact ⟨[], rfl, rfl, by simp⟩
    | cons s rest ih =>
      obtain ⟨b, hb⟩ := hall s (by simp)
      obtain ⟨res, hres, hfst, hmem⟩ := ih (fun x hx => hall x (by simp [hx]))
      refine ⟨(s, if b then true else false) :: res, ?_, ?_, ?_⟩
      · simp only [getStatusLoop, hb, hres]
      · simp [hfst]
      · intro pr hpr
        rcases List.mem_cons.mp hpr with h | h
        · subst h
          cases b <;> simpa using hb
        · exact hmem pr h
  · intro hfail
    simp only [serverStatus]
    induction servers with
    | nil => simp at hfail
    | cons s rest ih =>
      cases hs : isUp s with
      | error e =>
        exact ⟨e, by simp only [getStatusLoop, hs]⟩
      | ok b =>
        have : ∃ x ∈ rest, ∀ b, isUp x ≠ .ok b := by
          obtain ⟨x, hx, hxb⟩ := hfail
          rcases List.mem_cons.mp hx with h | h
          · exact absurd hs (h ▸ hxb b)
          · exact ⟨x, h, hxb⟩
        obtain ⟨e, he⟩ := ih this
        refine ⟨e, ?_⟩
        simp only [getStatusLoop, hs, he]

/-- **C9** counterexample: with two discovered servers where checking
"beta" raises, the whole batch aborts with that error — "alpha"'s result
(its check returns True) is blanked out. -/
theorem serverStatus_one_failure_blanks_batch :
    serverStatus (.ok ["alpha", "beta"])
        (fun s => if s == "beta" then .error .scanError else .ok true) =
      .error .scanError
    ∧ (fun s => if s == "beta" then .error .scanError else .ok true) "alpha" =
        (.ok true : Except StatusErr Bool) := by
  constructor
  · rfl
  · rfl

/-- Witness for `serverStatus_batch`: an all-successful batch reports every
identity, and a batch with one failing identity aborts. -/
theorem serverStatus_batch_witness :
    (∃ res, serverStatus (.ok ["alpha"]) (fun _ => .ok true) = .ok res
      ∧ res.map Prod.fst = ["alpha"]
      ∧ ∀ pr ∈ res, (fun _ => (.ok true : Except StatusErr Bool)) pr.1 = .ok pr.2)
    ∧ (∃ e, serverStatus (.ok ["alpha", "beta"])
        (fun s => if s == "beta" then .error .scanError else .ok true) = .error e) :=
  ⟨(serverStatus_batch ["alpha"] (fun _ => .ok true)).1
      (fun s _ => ⟨true, rfl⟩),
   (serverStatus_batch ["alpha", "beta"]
      (fun s => if s == "beta" then .error .scanError else .ok true)).2
      ⟨"beta", by simp, by decide⟩⟩

/-- The externally observable process-wide events of `serverStart`:
a working-directory change and a subprocess spawn. -/
inductive StartEvent
  | chdir (dir : String)
  | spawn (argv : List String)
deriving DecidableEq, Repr

/-- Function `serverStart` (`lifecycle.py` lines 10–27): resolves the invocation,
calls `os.chdir(server)` (marked `# TODO: add LOCK` in the source), then
spawns `screen -h 5000 -dmS <server.name> *invocation nogui` and waits;
the working directory is never restored.  The server's path and name and
the invocation returned by `get_invocation` are explicit parameters; the
call is modelled by its event sequence. -/
def serverStart (serverPath serverName : String) (invocation : List String) :
    List StartEvent :=
  [.chdir serverPath,
   .spawn (["screen", "-h", "5000", "-dmS", serverName] ++ invocation ++ ["nogui"])]

/-- The process-wide working directory after a sequence of events. -/
def cwdAfter (init : String) (evs : List StartEvent) : String :=
  evs.foldl (fun c e => match e with | .chdir d => d | .spawn _ => c) init

/-- **C10**: every `serverStart` call changes the process-wide working
directory to the server's directory before the spawn and never restores
it: whatever the working directory was initially, after the call it is the
server's directory; the first event is the chdir, no event after it is
another chdir, and the spawn comes last. -/
theorem serverStart_chdir_side_effect
    (init serverPath serverName : String) (invocation : List String) :
    cwdAfter init (serverStart serverPath serverName invocation) = serverPath
    ∧ (serverStart serverPath serverName invocation).head? =
        some (.chdir serverPath)
    ∧ (∀ e ∈ (serverStart serverPath serverName invocation).tail,
        ∀ d, e ≠ .chdir d)
    ∧ (serverStart serverPath serverName invocation).getLast? =
        some (.spawn (["screen", "-h", "5000", "-dmS", serverName] ++
          invocation ++ ["nogui"])) := by
  refine ⟨rfl, rfl, ?_, rfl⟩
  intro e he d
  simp only [serverStart, List.tail_cons, List.mem_singleton] at he
  subst he
  simp

/-- Witness for `serverStart_chdir_side_effect`: starting "alpha" from "/"
leaves the process-wide working directory at the server's directory. -/
theorem serverStart_chdir_side_effect_witness :
    cwdAfter "/" (serverStart "/srv/alpha" "alpha" ["java", "-jar", "alpha.jar"]) =
      "/srv/alpha" :=
  (serverStart_chdir_side_effect "/" "/srv/alpha" "alpha"
    ["java", "-jar", "alpha.jar"]).1

-- Sanity checks of the codec against hand-traced Python runs.
example : RCONPacket.encode ⟨[104, 101, 108, 112], COMMAND, 42⟩ =
    some ([14, 0, 0, 0] ++ [42, 0, 0, 0] ++ [2, 0, 0, 0] ++ [104, 101, 108, 112] ++ [0, 0]) := by
  decide

example : RCONPacket.decode ([42, 0, 0, 0] ++ [2, 0, 0, 0] ++ [104, 101, 108, 112] ++ [0, 0]) =
    .ok ⟨[104, 101, 108, 112], 2, 42⟩ := by decide

example : RCONPacket.decode ([14, 0, 0, 0] ++ [42, 0, 0, 0] ++ [2, 0, 0, 0] ++ [104, 101, 108, 112] ++ [0, 0]) =
    .ok ⟨[2, 0, 0, 0, 104, 101, 108, 112], 42, 14⟩ := by decide

example : RCONPacket.decode [255, 255, 255, 255] = .error .structError := by decide

example : RCONPacket.decode [255, 255, 255, 255, 9, 9, 9, 9] = .error .authFailure := by decide

example : pack_i (-1) = some [255, 255, 255, 255] := by decide

example : unpack_i [255, 255, 255, 255] = some (-1) := by decide

end Charcoal
